import Mathlib

/-!
Fee estimation of the rollup transaction sender

Shallow embedding of `rollup/internal/controller/sender/estimategas.go`
(`estimateLegacyGas`, `estimateDynamicGas`, `estimateGasLimit`).

Conventions of the embedding

* `*big.Int` is `Option Int` (`none` is the nil pointer), `uint64` is `Nat`
  with an explicit `% 2^64` where the Go arithmetic can wrap.
* A Go result pair `(v, err)` is a Lean pair whose second component is
  `Option GoError` (`none` is the nil error).
* The Chain Client is a state machine over an arbitrary state type `σ`: each
  RPC maps the state of the node to a response and a new state, so responses
  may depend on everything that was called before.  A response is either an
  error or a value; the value of a successful `SuggestGasPrice` or
  `SuggestGasTipCap` is a non-nil integer, as `ethclient.Client` returns it.
* The receiver `s` and the `auth` argument are allocated objects.  The
  pointers `contract`, `auth.Nonce` and `value` may be nil.
* A nil-pointer dereference is the outcome `Outcome.panicked`.
* Two ghost components record what the code does to its surroundings: the
  list of Chain Client calls and the list of `log.Error` records, both in
  program order.
-/

namespace EstimateGas

/-! ## Data model -/

/-- Value of Go's `byte`. -/
abbrev Byte := Fin 256

/-- Model of `common.Address`: the twenty bytes read as one number. -/
structure Address where
  val : Nat
deriving DecidableEq, Repr

/-- Model of a non-nil Go `error` value. -/
structure GoError where
  msg : String
deriving DecidableEq, Repr

/-- Model of the `context.Context` that is handed to every RPC unchanged. -/
structure Context where
  id : Nat
deriving DecidableEq, Repr

/-- Model of `bind.TransactOpts`, restricted to the two fields the file reads:
`From` and the nil-able `Nonce`. -/
structure TransactOpts where
  From : Address
  Nonce : Option Int
deriving DecidableEq, Repr

/-- Model of `ethereum.CallMsg`.  `Gas` and `AccessList` are never set by the
file and keep their zero values. -/
structure CallMsg where
  From : Address
  To : Option Address
  Gas : Nat
  GasPrice : Option Int
  GasFeeCap : Option Int
  GasTipCap : Option Int
  Value : Option Int
  Data : List Byte
  AccessList : List (Address × List Nat)
deriving DecidableEq, Repr

/-- Modelled from the spec: the struct `FeeData` (the spec's FeeQuote) is
declared outside `estimategas.go`; it has the optional fields `gasFeeCap`,
`gasTipCap`, `gasPrice` and the always present `gasLimit`.  A field left out
of a composite literal is nil. -/
structure FeeData where
  gasFeeCap : Option Int := none
  gasTipCap : Option Int := none
  gasPrice : Option Int := none
  gasLimit : Nat
deriving DecidableEq, Repr

/-- The three RPC operations of the Chain Client used by the file. -/
structure Client (σ : Type) where
  SuggestGasPrice : Context → σ → Except GoError Int × σ
  SuggestGasTipCap : Context → σ → Except GoError Int × σ
  EstimateGas : Context → CallMsg → σ → Except GoError Nat × σ

/-- Modelled from the spec: the struct `Sender` is declared outside
`estimategas.go`; the file reads its fields `client`, `ctx` and
`baseFeePerGas` (the Base Fee Snapshot, a `uint64`). -/
structure Sender (σ : Type) where
  client : Client σ
  ctx : Context
  baseFeePerGas : Nat

/-- One call made on the Chain Client. -/
inductive ClientCall where
  | suggestGasPrice (ctx : Context)
  | suggestGasTipCap (ctx : Context)
  | estimateGas (ctx : Context) (msg : CallMsg)
deriving DecidableEq, Repr

/-- A value handed to `log.Error` as context. -/
inductive LogValue where
  | err (e : GoError)
  | bigInt (x : Int)
  | uint64 (n : Nat)
  | hex (a : Address)
deriving DecidableEq, Repr

/-- One `log.Error` record: the message and the key/value context. -/
structure LogRecord where
  msg : String
  ctx : List (String × LogValue)
deriving DecidableEq, Repr

/-- The state a call runs in: the sender, the state of the node behind
`s.client`, and the two ghost records. -/
structure Machine (σ : Type) where
  s : Sender σ
  chain : σ
  calls : List ClientCall
  logs : List LogRecord

/-- How a Go call ends: it returns a value or it panics. -/
inductive Outcome (α : Type) where
  | returned (a : α)
  | panicked
deriving DecidableEq, Repr

/-! ## Primitive steps -/

/-- The effect of `log.Error(msg, ctx...)`. -/
def Machine.logError {σ : Type} (m : Machine σ) (msg : String)
    (ctx : List (String × LogValue)) : Machine σ :=
  { m with logs := m.logs ++ [{ msg := msg, ctx := ctx }] }

/-- The call `s.client.SuggestGasPrice(s.ctx)`. -/
def Machine.SuggestGasPrice {σ : Type} (m : Machine σ) : Except GoError Int × Machine σ :=
  let r := m.s.client.SuggestGasPrice m.s.ctx m.chain
  (r.1, { m with chain := r.2, calls := m.calls ++ [ClientCall.suggestGasPrice m.s.ctx] })

/-- The call `s.client.SuggestGasTipCap(s.ctx)`. -/
def Machine.SuggestGasTipCap {σ : Type} (m : Machine σ) : Except GoError Int × Machine σ :=
  let r := m.s.client.SuggestGasTipCap m.s.ctx m.chain
  (r.1, { m with chain := r.2, calls := m.calls ++ [ClientCall.suggestGasTipCap m.s.ctx] })

/-- The call `s.client.EstimateGas(s.ctx, msg)`. -/
def Machine.EstimateGas {σ : Type} (m : Machine σ) (msg : CallMsg) :
    Except GoError Nat × Machine σ :=
  let r := m.s.client.EstimateGas m.s.ctx msg m.chain
  (r.1, { m with chain := r.2, calls := m.calls ++ [ClientCall.estimateGas m.s.ctx msg] })

/-- The method `(*big.Int).Uint64`: the low 64 bits of the absolute value; on
the nil pointer it dereferences nil. -/
def Uint64 : Option Int → Outcome Nat
  | none => Outcome.panicked
  | some x => Outcome.returned (x.natAbs % 2 ^ 64)

/-- The method `common.Address.Hex` called through a `*common.Address`: the
pointer is dereferenced first.  The rendering itself is kept symbolic. -/
def Hex : Option Address → Outcome LogValue
  | none => Outcome.panicked
  | some a => Outcome.returned (LogValue.hex a)

/-- The composite literal `ethereum.CallMsg{...}` of `estimateGasLimit`. -/
def mkCallMsg (opts : TransactOpts) (contract : Option Address) (input : List Byte)
    (gasPrice gasTipCap gasFeeCap value : Option Int) : CallMsg :=
  { From := opts.From
    To := contract
    Gas := 0
    GasPrice := gasPrice
    GasTipCap := gasTipCap
    GasFeeCap := gasFeeCap
    Value := value
    Data := input
    AccessList := [] }

/-- Lines 41 to 48 of `estimateDynamicGas`: the fee cap computed from the
suggested tip cap and the loaded Base Fee Snapshot `feeGas`, in `big.Int`
arithmetic. -/
def feeCapOf (gasTipCap : Int) (feeGas : Nat) : Int :=
  let baseFee : Int := if feeGas ≠ 0 then (feeGas : Int) else 0
  gasTipCap + baseFee * 2

/-! ## The three functions of the file -/

/-- The method `estimateGasLimit`: one `EstimateGas` call, then the margin
`gasLimit * 12 / 10` in `uint64` arithmetic. -/
def estimateGasLimit {σ : Type} (m : Machine σ) (opts : TransactOpts)
    (contract : Option Address) (input : List Byte)
    (gasPrice gasTipCap gasFeeCap value : Option Int) :
    (Nat × Option GoError) × Machine σ :=
  let msg := mkCallMsg opts contract input gasPrice gasTipCap gasFeeCap value
  let r := m.EstimateGas msg
  match r.1 with
  | Except.error err =>
    ((0, some err), r.2.logError "estimateGasLimit EstimateGas failure" [("error", LogValue.err err)])
  | Except.ok gasLimit =>
    ((gasLimit * 12 % 2 ^ 64 / 10, none), r.2)

/-- The method `estimateLegacyGas`. -/
def estimateLegacyGas {σ : Type} (m : Machine σ) (auth : TransactOpts)
    (contract : Option Address) (value : Option Int) (input : List Byte)
    (fallbackGasLimit : Nat) : Outcome (Option FeeData × Option GoError) × Machine σ :=
  let r := m.SuggestGasPrice
  match r.1 with
  | Except.error err =>
    (Outcome.returned (none, some err),
      r.2.logError "estimateLegacyGas SuggestGasPrice failure" [("error", LogValue.err err)])
  | Except.ok gasPrice =>
    let g := estimateGasLimit r.2 auth contract input (some gasPrice) none none value
    match g.1.2 with
    | some err =>
      -- the arguments of log.Error are evaluated left to right
      match Uint64 auth.Nonce with
      | Outcome.panicked => (Outcome.panicked, g.2)
      | Outcome.returned nonce =>
        match Hex contract with
        | Outcome.panicked => (Outcome.panicked, g.2)
        | Outcome.returned contractHex =>
          let m3 := g.2.logError "estimateLegacyGas estimateGasLimit failure"
            [("gas price", LogValue.bigInt gasPrice), ("from", LogValue.hex auth.From),
             ("nonce", LogValue.uint64 nonce), ("contract address", contractHex),
             ("fallback gas limit", LogValue.uint64 fallbackGasLimit),
             ("error", LogValue.err err)]
          if fallbackGasLimit = 0 then
            (Outcome.returned (none, some err), m3)
          else
            (Outcome.returned
              (some { gasPrice := some gasPrice, gasLimit := fallbackGasLimit }, none), m3)
    | none =>
      (Outcome.returned (some { gasPrice := some gasPrice, gasLimit := g.1.1 }, none), g.2)

/-- The method `estimateDynamicGas`. -/
def estimateDynamicGas {σ : Type} (m : Machine σ) (auth : TransactOpts)
    (contract : Option Address) (value : Option Int) (input : List Byte)
    (fallbackGasLimit : Nat) : Outcome (Option FeeData × Option GoError) × Machine σ :=
  let r := m.SuggestGasTipCap
  match r.1 with
  | Except.error err =>
    (Outcome.returned (none, some err),
      r.2.logError "estimateDynamicGas SuggestGasTipCap failure" [("error", LogValue.err err)])
  | Except.ok gasTipCap =>
    let gasFeeCap := feeCapOf gasTipCap r.2.s.baseFeePerGas
    let g := estimateGasLimit r.2 auth contract input none (some gasTipCap) (some gasFeeCap) value
    match g.1.2 with
    | some err =>
      -- the arguments of log.Error are evaluated left to right
      match Uint64 auth.Nonce with
      | Outcome.panicked => (Outcome.panicked, g.2)
      | Outcome.returned nonce =>
        match Hex contract with
        | Outcome.panicked => (Outcome.panicked, g.2)
        | Outcome.returned contractHex =>
          let m3 := g.2.logError "estimateDynamicGas estimateGasLimit failure"
            [("from", LogValue.hex auth.From), ("nonce", LogValue.uint64 nonce),
             ("contract address", contractHex),
             ("fallback gas limit", LogValue.uint64 fallbackGasLimit),
             ("error", LogValue.err err)]
          if fallbackGasLimit = 0 then
            (Outcome.returned (none, some err), m3)
          else
            (Outcome.returned
              (some { gasLimit := fallbackGasLimit, gasTipCap := some gasTipCap,
                      gasFeeCap := some gasFeeCap }, none), m3)
    | none =>
      (Outcome.returned
        (some { gasLimit := g.1.1, gasTipCap := some gasTipCap, gasFeeCap := some gasFeeCap },
          none), g.2)

/-! ## Concrete clients used to run the code -/

/-- A Chain Client whose state counts the calls made on it and whose
responses are fixed in advance; the estimate may depend on the message. -/
def scriptedClient (price tip : Except GoError Int) (gas : CallMsg → Except GoError Nat) :
    Client Nat :=
  { SuggestGasPrice := fun _ n => (price, n + 1)
    SuggestGasTipCap := fun _ n => (tip, n + 1)
    EstimateGas := fun _ msg n => (gas msg, n + 1) }

/-- A fresh machine around `scriptedClient` with the given Base Fee Snapshot. -/
def scriptedMachine (price tip : Except GoError Int) (gas : CallMsg → Except GoError Nat)
    (baseFee : Nat) : Machine Nat :=
  { s := { client := scriptedClient price tip gas, ctx := { id := 7 }, baseFeePerGas := baseFee }
    chain := 0
    calls := []
    logs := [] }

/-- A sender address. -/
def alice : Address := { val := 0xA11CE }

/-- A target contract address. -/
def target : Address := { val := 0xC0DE }

/-- An `auth` whose nonce is present. -/
def authAlice : TransactOpts := { From := alice, Nonce := some 3 }

/-- The error of a failed simulation. -/
def errRevert : GoError := { msg := "execution reverted" }

/-- The error of a failed suggestion. -/
def errDial : GoError := { msg := "connection refused" }

/-- A second sender address. -/
def bob : Address := { val := 0xB0B }

/-- An `auth` of the same sender whose nonce is nil. -/
def authNoNonce : TransactOpts := { From := alice, Nonce := none }

/-- An `auth` of the second sender, with the nonce of `authAlice`. -/
def authBob : TransactOpts := { From := bob, Nonce := some 3 }

/-- A machine whose node answers every suggestion with a value (gas price 1,
tip cap 2) and every simulation with the raw estimate `r`; the Base Fee
Snapshot is 5. -/
def estimatingMachine (r : Nat) : Machine Nat :=
  scriptedMachine (Except.ok 1) (Except.ok 2) (fun _ => Except.ok r) 5

/-- A machine whose node answers every suggestion with a value (gas price 1,
tip cap 2) and fails every simulation with `errRevert`; the Base Fee Snapshot
is 5. -/
def revertingMachine : Machine Nat :=
  scriptedMachine (Except.ok 1) (Except.ok 2) (fun _ => Except.error errRevert) 5

/-- A machine whose node fails every suggestion with `errDial`; a simulation,
were it asked for, would succeed with 100000. -/
def unreachableMachine : Machine Nat :=
  scriptedMachine (Except.error errDial) (Except.error errDial) (fun _ => Except.ok 100000) 5

/-- A machine whose node simulates successfully (raw estimate 100000) only
calls sent from `alice` and fails with `errRevert` for every other sender. -/
def senderCheckingMachine : Machine Nat :=
  scriptedMachine (Except.ok 1) (Except.ok 2)
    (fun msg => if msg.From = alice then Except.ok 100000 else Except.error errRevert) 5

/-! ## Path equations

One equation per path through each function, giving the returned value and
the machine afterwards. -/

theorem estimateGasLimit_ok {σ : Type} (m : Machine σ) (opts : TransactOpts)
    (contract : Option Address) (input : List Byte)
    (gasPrice gasTipCap gasFeeCap value : Option Int) (r : Nat)
    (h : (m.EstimateGas (mkCallMsg opts contract input gasPrice gasTipCap gasFeeCap value)).1
      = Except.ok r) :
    estimateGasLimit m opts contract input gasPrice gasTipCap gasFeeCap value
      = ((r * 12 % 2 ^ 64 / 10, none),
         (m.EstimateGas (mkCallMsg opts contract input gasPrice gasTipCap gasFeeCap value)).2) := by
  simp only [estimateGasLimit, h]

theorem estimateGasLimit_error {σ : Type} (m : Machine σ) (opts : TransactOpts)
    (contract : Option Address) (input : List Byte)
    (gasPrice gasTipCap gasFeeCap value : Option Int) (e : GoError)
    (h : (m.EstimateGas (mkCallMsg opts contract input gasPrice gasTipCap gasFeeCap value)).1
      = Except.error e) :
    estimateGasLimit m opts contract input gasPrice gasTipCap gasFeeCap value
      = ((0, some e),
         (m.EstimateGas (mkCallMsg opts contract input gasPrice gasTipCap gasFeeCap value)).2.logError
           "estimateGasLimit EstimateGas failure" [("error", LogValue.err e)]) := by
  simp only [estimateGasLimit, h]

theorem estimateLegacyGas_estimated {σ : Type} (m : Machine σ) (auth : TransactOpts)
    (contract : Option Address) (value : Option Int) (input : List Byte) (f : Nat)
    (p : Int) (r : Nat)
    (hp : m.SuggestGasPrice.1 = Except.ok p)
    (hr : (m.SuggestGasPrice.2.EstimateGas
      (mkCallMsg auth contract input (some p) none none value)).1 = Except.ok r) :
    estimateLegacyGas m auth contract value input f
      = (Outcome.returned (some { gasPrice := some p, gasLimit := r * 12 % 2 ^ 64 / 10 }, none),
         (m.SuggestGasPrice.2.EstimateGas
           (mkCallMsg auth contract input (some p) none none value)).2) := by
  simp only [estimateLegacyGas, hp, estimateGasLimit_ok _ _ _ _ _ _ _ _ r hr]

theorem estimateLegacyGas_priceError {σ : Type} (m : Machine σ) (auth : TransactOpts)
    (contract : Option Address) (value : Option Int) (input : List Byte) (f : Nat)
    (e : GoError) (hp : m.SuggestGasPrice.1 = Except.error e) :
    estimateLegacyGas m auth contract value input f
      = (Outcome.returned (none, some e),
         m.SuggestGasPrice.2.logError "estimateLegacyGas SuggestGasPrice failure"
           [("error", LogValue.err e)]) := by
  simp only [estimateLegacyGas, hp]

theorem estimateLegacyGas_failed {σ : Type} (m : Machine σ) (auth : TransactOpts)
    (contract : Option Address) (value : Option Int) (input : List Byte) (f : Nat)
    (p : Int) (e : GoError) (n : Int) (c : Address)
    (hp : m.SuggestGasPrice.1 = Except.ok p)
    (hr : (m.SuggestGasPrice.2.EstimateGas
      (mkCallMsg auth contract input (some p) none none value)).1 = Except.error e)
    (hn : auth.Nonce = some n) (hc : contract = some c) :
    estimateLegacyGas m auth contract value input f
      = (Outcome.returned
          (if f = 0 then (none, some e)
           else (some { gasPrice := some p, gasLimit := f }, none)),
         ((m.SuggestGasPrice.2.EstimateGas
            (mkCallMsg auth contract input (some p) none none value)).2.logError
              "estimateGasLimit EstimateGas failure" [("error", LogValue.err e)]).logError
              "estimateLegacyGas estimateGasLimit failure"
              [("gas price", LogValue.bigInt p), ("from", LogValue.hex auth.From),
               ("nonce", LogValue.uint64 (n.natAbs % 2 ^ 64)),
               ("contract address", LogValue.hex c),
               ("fallback gas limit", LogValue.uint64 f), ("error", LogValue.err e)]) := by
  simp only [estimateLegacyGas, hp, estimateGasLimit_error _ _ _ _ _ _ _ _ e hr]
  simp only [hn, hc, Uint64, Hex]
  split <;> rfl

theorem estimateLegacyGas_panics {σ : Type} (m : Machine σ) (auth : TransactOpts)
    (contract : Option Address) (value : Option Int) (input : List Byte) (f : Nat)
    (p : Int) (e : GoError)
    (hp : m.SuggestGasPrice.1 = Except.ok p)
    (hr : (m.SuggestGasPrice.2.EstimateGas
      (mkCallMsg auth contract input (some p) none none value)).1 = Except.error e)
    (hnil : auth.Nonce = none ∨ contract = none) :
    estimateLegacyGas m auth contract value input f
      = (Outcome.panicked,
         (m.SuggestGasPrice.2.EstimateGas
            (mkCallMsg auth contract input (some p) none none value)).2.logError
              "estimateGasLimit EstimateGas failure" [("error", LogValue.err e)]) := by
  simp only [estimateLegacyGas, hp, estimateGasLimit_error _ _ _ _ _ _ _ _ e hr]
  rcases hnil with h | h
  · simp only [h, Uint64]
  · cases hn : auth.Nonce <;> simp only [h, Uint64, Hex]

theorem estimateDynamicGas_tipError {σ : Type} (m : Machine σ) (auth : TransactOpts)
    (contract : Option Address) (value : Option Int) (input : List Byte) (f : Nat)
    (e : GoError) (ht : m.SuggestGasTipCap.1 = Except.error e) :
    estimateDynamicGas m auth contract value input f
      = (Outcome.returned (none, some e),
         m.SuggestGasTipCap.2.logError "estimateDynamicGas SuggestGasTipCap failure"
           [("error", LogValue.err e)]) := by
  simp only [estimateDynamicGas, ht]

theorem suggestGasTipCap_sender {σ : Type} (m : Machine σ) : m.SuggestGasTipCap.2.s = m.s := rfl

theorem estimateDynamicGas_estimated {σ : Type} (m : Machine σ) (auth : TransactOpts)
    (contract : Option Address) (value : Option Int) (input : List Byte) (f : Nat)
    (t : Int) (r : Nat)
    (ht : m.SuggestGasTipCap.1 = Except.ok t)
    (hr : (m.SuggestGasTipCap.2.EstimateGas
      (mkCallMsg auth contract input none (some t) (some (feeCapOf t m.s.baseFeePerGas))
        value)).1 = Except.ok r) :
    estimateDynamicGas m auth contract value input f
      = (Outcome.returned
          (some { gasLimit := r * 12 % 2 ^ 64 / 10, gasTipCap := some t,
                  gasFeeCap := some (feeCapOf t m.s.baseFeePerGas) }, none),
         (m.SuggestGasTipCap.2.EstimateGas
           (mkCallMsg auth contract input none (some t) (some (feeCapOf t m.s.baseFeePerGas))
             value)).2) := by
  simp only [estimateDynamicGas, ht, suggestGasTipCap_sender,
    estimateGasLimit_ok _ _ _ _ _ _ _ _ r hr]

theorem estimateDynamicGas_failed {σ : Type} (m : Machine σ) (auth : TransactOpts)
    (contract : Option Address) (value : Option Int) (input : List Byte) (f : Nat)
    (t : Int) (e : GoError) (n : Int) (c : Address)
    (ht : m.SuggestGasTipCap.1 = Except.ok t)
    (hr : (m.SuggestGasTipCap.2.EstimateGas
      (mkCallMsg auth contract input none (some t) (some (feeCapOf t m.s.baseFeePerGas))
        value)).1 = Except.error e)
    (hn : auth.Nonce = some n) (hc : contract = some c) :
    estimateDynamicGas m auth contract value input f
      = (Outcome.returned
          (if f = 0 then (none, some e)
           else (some { gasLimit := f, gasTipCap := some t,
                        gasFeeCap := some (feeCapOf t m.s.baseFeePerGas) }, none)),
         ((m.SuggestGasTipCap.2.EstimateGas
            (mkCallMsg auth contract input none (some t)
              (some (feeCapOf t m.s.baseFeePerGas)) value)).2.logError
              "estimateGasLimit EstimateGas failure" [("error", LogValue.err e)]).logError
              "estimateDynamicGas estimateGasLimit failure"
              [("from", LogValue.hex auth.From),
               ("nonce", LogValue.uint64 (n.natAbs % 2 ^ 64)),
               ("contract address", LogValue.hex c),
               ("fallback gas limit", LogValue.uint64 f), ("error", LogValue.err e)]) := by
  simp only [estimateDynamicGas, ht, suggestGasTipCap_sender,
    estimateGasLimit_error _ _ _ _ _ _ _ _ e hr]
  simp only [hn, hc, Uint64, Hex]
  split <;> rfl

theorem estimateDynamicGas_panics {σ : Type} (m : Machine σ) (auth : TransactOpts)
    (contract : Option Address) (value : Option Int) (input : List Byte) (f : Nat)
    (t : Int) (e : GoError)
    (ht : m.SuggestGasTipCap.1 = Except.ok t)
    (hr : (m.SuggestGasTipCap.2.EstimateGas
      (mkCallMsg auth contract input none (some t) (some (feeCapOf t m.s.baseFeePerGas))
        value)).1 = Except.error e)
    (hnil : auth.Nonce = none ∨ contract = none) :
    estimateDynamicGas m auth contract value input f
      = (Outcome.panicked,
         (m.SuggestGasTipCap.2.EstimateGas
            (mkCallMsg auth contract input none (some t)
              (some (feeCapOf t m.s.baseFeePerGas)) value)).2.logError
              "estimateGasLimit EstimateGas failure" [("error", LogValue.err e)]) := by
  simp only [estimateDynamicGas, ht, suggestGasTipCap_sender,
    estimateGasLimit_error _ _ _ _ _ _ _ _ e hr]
  rcases hnil with h | h
  · simp only [h, Uint64]
  · cases hn : auth.Nonce <;> simp only [h, Uint64, Hex]

/-! ## Frame: what each function leaves behind -/

theorem estimateGasLimit_frame {σ : Type} (m : Machine σ) (opts : TransactOpts)
    (contract : Option Address) (input : List Byte)
    (gasPrice gasTipCap gasFeeCap value : Option Int) :
    (estimateGasLimit m opts contract input gasPrice gasTipCap gasFeeCap value).2.s = m.s ∧
    (estimateGasLimit m opts contract input gasPrice gasTipCap gasFeeCap value).2.calls
      = m.calls ++ [ClientCall.estimateGas m.s.ctx
          (mkCallMsg opts contract input gasPrice gasTipCap gasFeeCap value)] ∧
    (estimateGasLimit m opts contract input gasPrice gasTipCap gasFeeCap value).2.chain
      = (m.s.client.EstimateGas m.s.ctx
          (mkCallMsg opts contract input gasPrice gasTipCap gasFeeCap value) m.chain).2 := by
  cases h : (m.EstimateGas (mkCallMsg opts contract input gasPrice gasTipCap gasFeeCap value)).1 with
  | error e => rw [estimateGasLimit_error _ _ _ _ _ _ _ _ e h]; exact ⟨rfl, rfl, rfl⟩
  | ok r => rw [estimateGasLimit_ok _ _ _ _ _ _ _ _ r h]; exact ⟨rfl, rfl, rfl⟩

/-- The Chain Client calls appended by `estimateLegacyGas`, the node state it
leaves, and the untouched sender, on every path (a panic included). -/
theorem estimateLegacyGas_frame {σ : Type} (m : Machine σ) (auth : TransactOpts)
    (contract : Option Address) (value : Option Int) (input : List Byte) (f : Nat) :
    (estimateLegacyGas m auth contract value input f).2.s = m.s ∧
    (estimateLegacyGas m auth contract value input f).2.calls
      = m.calls ++ ClientCall.suggestGasPrice m.s.ctx ::
          (match m.SuggestGasPrice.1 with
           | Except.error _ => []
           | Except.ok p => [ClientCall.estimateGas m.s.ctx
               (mkCallMsg auth contract input (some p) none none value)]) ∧
    (estimateLegacyGas m auth contract value input f).2.chain
      = (match m.SuggestGasPrice.1 with
         | Except.error _ => m.SuggestGasPrice.2.chain
         | Except.ok p => (m.SuggestGasPrice.2.EstimateGas
             (mkCallMsg auth contract input (some p) none none value)).2.chain) := by
  cases hp : m.SuggestGasPrice.1 with
  | error e =>
    rw [estimateLegacyGas_priceError m auth contract value input f e hp]
    exact ⟨rfl, rfl, rfl⟩
  | ok p =>
    cases hr : (m.SuggestGasPrice.2.EstimateGas
        (mkCallMsg auth contract input (some p) none none value)).1 with
    | ok r =>
      rw [estimateLegacyGas_estimated m auth contract value input f p r hp hr]
      exact ⟨rfl, by simp [Machine.EstimateGas, Machine.SuggestGasPrice], rfl⟩
    | error e =>
      cases hn : auth.Nonce with
      | none =>
        rw [estimateLegacyGas_panics m auth contract value input f p e hp hr (Or.inl hn)]
        exact ⟨rfl, by simp [Machine.EstimateGas, Machine.SuggestGasPrice, Machine.logError], rfl⟩
      | some n =>
        cases hc : contract with
        | none =>
          rw [estimateLegacyGas_panics m auth none value input f p e hp (hc ▸ hr) (Or.inr rfl)]
          exact ⟨rfl, by simp [Machine.EstimateGas, Machine.SuggestGasPrice, Machine.logError],
            rfl⟩
        | some c =>
          rw [estimateLegacyGas_failed m auth (some c) value input f p e n c hp (hc ▸ hr) hn rfl]
          exact ⟨rfl, by simp [Machine.EstimateGas, Machine.SuggestGasPrice, Machine.logError],
            rfl⟩

/-- The Chain Client calls appended by `estimateDynamicGas`, the node state it
leaves, and the untouched sender, on every path (a panic included). -/
theorem estimateDynamicGas_frame {σ : Type} (m : Machine σ) (auth : TransactOpts)
    (contract : Option Address) (value : Option Int) (input : List Byte) (f : Nat) :
    (estimateDynamicGas m auth contract value input f).2.s = m.s ∧
    (estimateDynamicGas m auth contract value input f).2.calls
      = m.calls ++ ClientCall.suggestGasTipCap m.s.ctx ::
          (match m.SuggestGasTipCap.1 with
           | Except.error _ => []
           | Except.ok t => [ClientCall.estimateGas m.s.ctx
               (mkCallMsg auth contract input none (some t)
                 (some (feeCapOf t m.s.baseFeePerGas)) value)]) ∧
    (estimateDynamicGas m auth contract value input f).2.chain
      = (match m.SuggestGasTipCap.1 with
         | Except.error _ => m.SuggestGasTipCap.2.chain
         | Except.ok t => (m.SuggestGasTipCap.2.EstimateGas
             (mkCallMsg auth contract input none (some t)
               (some (feeCapOf t m.s.baseFeePerGas)) value)).2.chain) := by
  cases ht : m.SuggestGasTipCap.1 with
  | error e =>
    rw [estimateDynamicGas_tipError m auth contract value input f e ht]
    exact ⟨rfl, rfl, rfl⟩
  | ok t =>
    cases hr : (m.SuggestGasTipCap.2.EstimateGas
        (mkCallMsg auth contract input none (some t) (some (feeCapOf t m.s.baseFeePerGas))
          value)).1 with
    | ok r =>
      rw [estimateDynamicGas_estimated m auth contract value input f t r ht hr]
      exact ⟨rfl, by simp [Machine.EstimateGas, Machine.SuggestGasTipCap], rfl⟩
    | error e =>
      cases hn : auth.Nonce with
      | none =>
        rw [estimateDynamicGas_panics m auth contract value input f t e ht hr (Or.inl hn)]
        exact ⟨rfl, by simp [Machine.EstimateGas, Machine.SuggestGasTipCap, Machine.logError],
          rfl⟩
      | some n =>
        cases hc : contract with
        | none =>
          rw [estimateDynamicGas_panics m auth none value input f t e ht (hc ▸ hr) (Or.inr rfl)]
          exact ⟨rfl, by simp [Machine.EstimateGas, Machine.SuggestGasTipCap, Machine.logError],
            rfl⟩
        | some c =>
          rw [estimateDynamicGas_failed m auth (some c) value input f t e n c ht (hc ▸ hr) hn rfl]
          exact ⟨rfl, by simp [Machine.EstimateGas, Machine.SuggestGasTipCap, Machine.logError],
            rfl⟩

/-! ## Inversion: where a returned quote comes from -/

/-- A quote returned by `estimateLegacyGas` comes with a nil error, carries
the suggested gas price, and its limit is the margin of a successful
simulation or the nonzero fallback after a failed one. -/
theorem estimateLegacyGas_quote_inv {σ : Type} (m : Machine σ) (auth : TransactOpts)
    (contract : Option Address) (value : Option Int) (input : List Byte) (f : Nat)
    (q : FeeData) (err : Option GoError)
    (h : (estimateLegacyGas m auth contract value input f).1 = Outcome.returned (some q, err)) :
    err = none ∧ ∃ p : Int, m.SuggestGasPrice.1 = Except.ok p ∧
      ((∃ r : Nat, (m.SuggestGasPrice.2.EstimateGas
            (mkCallMsg auth contract input (some p) none none value)).1 = Except.ok r ∧
          q = { gasPrice := some p, gasLimit := r * 12 % 2 ^ 64 / 10 }) ∨
       (∃ e : GoError, (m.SuggestGasPrice.2.EstimateGas
            (mkCallMsg auth contract input (some p) none none value)).1 = Except.error e ∧
          f ≠ 0 ∧ q = { gasPrice := some p, gasLimit := f })) := by
  cases hp : m.SuggestGasPrice.1 with
  | error e =>
    rw [estimateLegacyGas_priceError m auth contract value input f e hp] at h
    simp at h
  | ok p =>
    cases hr : (m.SuggestGasPrice.2.EstimateGas
        (mkCallMsg auth contract input (some p) none none value)).1 with
    | ok r =>
      rw [estimateLegacyGas_estimated m auth contract value input f p r hp hr] at h
      simp only [Outcome.returned.injEq, Prod.mk.injEq, Option.some.injEq] at h
      exact ⟨h.2.symm, p, rfl, Or.inl ⟨r, hr, h.1.symm⟩⟩
    | error e =>
      cases hn : auth.Nonce with
      | none =>
        rw [estimateLegacyGas_panics m auth contract value input f p e hp hr (Or.inl hn)] at h
        simp at h
      | some n =>
        cases hc : contract with
        | none =>
          rw [estimateLegacyGas_panics m auth contract value input f p e hp hr (Or.inr hc)] at h
          simp at h
        | some c =>
          subst hc
          rw [estimateLegacyGas_failed m auth (some c) value input f p e n c hp hr hn rfl] at h
          by_cases hf : f = 0
          · simp [hf] at h
          · simp only [hf, if_false, Outcome.returned.injEq, Prod.mk.injEq,
              Option.some.injEq] at h
            exact ⟨h.2.symm, p, rfl, Or.inr ⟨e, hr, hf, h.1.symm⟩⟩

/-- A quote returned by `estimateDynamicGas` comes with a nil error, carries
the suggested tip cap and the computed fee cap, and its limit is the margin of
a successful simulation or the nonzero fallback after a failed one. -/
theorem estimateDynamicGas_quote_inv {σ : Type} (m : Machine σ) (auth : TransactOpts)
    (contract : Option Address) (value : Option Int) (input : List Byte) (f : Nat)
    (q : FeeData) (err : Option GoError)
    (h : (estimateDynamicGas m auth contract value input f).1 = Outcome.returned (some q, err)) :
    err = none ∧ ∃ t : Int, m.SuggestGasTipCap.1 = Except.ok t ∧
      ((∃ r : Nat, (m.SuggestGasTipCap.2.EstimateGas
            (mkCallMsg auth contract input none (some t)
              (some (feeCapOf t m.s.baseFeePerGas)) value)).1 = Except.ok r ∧
          q = { gasLimit := r * 12 % 2 ^ 64 / 10, gasTipCap := some t,
                gasFeeCap := some (feeCapOf t m.s.baseFeePerGas) }) ∨
       (∃ e : GoError, (m.SuggestGasTipCap.2.EstimateGas
            (mkCallMsg auth contract input none (some t)
              (some (feeCapOf t m.s.baseFeePerGas)) value)).1 = Except.error e ∧
          f ≠ 0 ∧ q = { gasLimit := f, gasTipCap := some t,
                        gasFeeCap := some (feeCapOf t m.s.baseFeePerGas) })) := by
  cases ht : m.SuggestGasTipCap.1 with
  | error e =>
    rw [estimateDynamicGas_tipError m auth contract value input f e ht] at h
    simp at h
  | ok t =>
    cases hr : (m.SuggestGasTipCap.2.EstimateGas
        (mkCallMsg auth contract input none (some t) (some (feeCapOf t m.s.baseFeePerGas))
          value)).1 with
    | ok r =>
      rw [estimateDynamicGas_estimated m auth contract value input f t r ht hr] at h
      simp only [Outcome.returned.injEq, Prod.mk.injEq, Option.some.injEq] at h
      exact ⟨h.2.symm, t, rfl, Or.inl ⟨r, hr, h.1.symm⟩⟩
    | error e =>
      cases hn : auth.Nonce with
      | none =>
        rw [estimateDynamicGas_panics m auth contract value input f t e ht hr (Or.inl hn)] at h
        simp at h
      | some n =>
        cases hc : contract with
        | none =>
          rw [estimateDynamicGas_panics m auth contract value input f t e ht hr (Or.inr hc)] at h
          simp at h
        | some c =>
          subst hc
          rw [estimateDynamicGas_failed m auth (some c) value input f t e n c ht hr hn rfl] at h
          by_cases hf : f = 0
          · simp [hf] at h
          · simp only [hf, if_false, Outcome.returned.injEq, Prod.mk.injEq,
              Option.some.injEq] at h
            exact ⟨h.2.symm, t, rfl, Or.inr ⟨e, hr, hf, h.1.symm⟩⟩

/-- The fee cap of lines 41 to 48 is the tip cap plus twice the snapshot, as
an exact integer; the zero test on the snapshot changes nothing. -/
theorem feeCapOf_eq (t : Int) (b : Nat) : feeCapOf t b = t + 2 * (b : Int) := by
  unfold feeCapOf
  by_cases hb : b = 0
  · simp [hb]
  · simp [hb, mul_comm]

/-! ## The safety margin on the estimated path -/

/-- C1, as stated, fails: the raw estimate `2^63` is a `uint64` value, both
suggestions and the simulation succeed, and both strategies return a quote
whose gasLimit is 0, while `floor(2^63 * 12 / 10)` over the natural numbers is
11068046444225730969. -/
theorem margin_wraps_at_two_pow_63 :
    2 ^ 63 < 2 ^ 64 ∧
    (estimatingMachine (2 ^ 63)).SuggestGasPrice.1 = Except.ok 1 ∧
    ((estimatingMachine (2 ^ 63)).SuggestGasPrice.2.EstimateGas
      (mkCallMsg authAlice (some target) [] (some 1) none none (some 0))).1
        = Except.ok (2 ^ 63) ∧
    (estimateLegacyGas (estimatingMachine (2 ^ 63)) authAlice (some target) (some 0) [] 0).1
      = Outcome.returned (some { gasPrice := some 1, gasLimit := 0 }, none) ∧
    (estimateDynamicGas (estimatingMachine (2 ^ 63)) authAlice (some target) (some 0) [] 0).1
      = Outcome.returned
          (some { gasLimit := 0, gasTipCap := some 2, gasFeeCap := some 12 }, none) ∧
    2 ^ 63 * 12 / 10 = 11068046444225730969 := by
  refine ⟨by decide, rfl, rfl, by decide, by decide, by decide⟩

/-- C1, amended: for every `uint64` raw estimate `r` and every fallback limit,
when the suggestion and the simulation succeed, both strategies return a quote
with a nil error whose gasLimit is `((r * 12) mod 2^64) / 10`, the product
being taken in 64-bit unsigned arithmetic; whenever `r * 12 < 2^64` this is
`floor(r * 12 / 10)` over the natural numbers. -/
theorem gasLimit_is_margin_of_estimate {σ : Type} (m : Machine σ) (auth : TransactOpts)
    (contract : Option Address) (value : Option Int) (input : List Byte) (f : Nat)
    (r : Nat) (_hr : r < 2 ^ 64) :
    (∀ p : Int, m.SuggestGasPrice.1 = Except.ok p →
      (m.SuggestGasPrice.2.EstimateGas
        (mkCallMsg auth contract input (some p) none none value)).1 = Except.ok r →
      ∃ q : FeeData,
        (estimateLegacyGas m auth contract value input f).1 = Outcome.returned (some q, none) ∧
        q.gasLimit = r * 12 % 2 ^ 64 / 10 ∧
        (r * 12 < 2 ^ 64 → q.gasLimit = r * 12 / 10)) ∧
    (∀ t : Int, m.SuggestGasTipCap.1 = Except.ok t →
      (m.SuggestGasTipCap.2.EstimateGas
        (mkCallMsg auth contract input none (some t) (some (feeCapOf t m.s.baseFeePerGas))
          value)).1 = Except.ok r →
      ∃ q : FeeData,
        (estimateDynamicGas m auth contract value input f).1 = Outcome.returned (some q, none) ∧
        q.gasLimit = r * 12 % 2 ^ 64 / 10 ∧
        (r * 12 < 2 ^ 64 → q.gasLimit = r * 12 / 10)) := by
  constructor
  · intro p hp hr
    refine ⟨_, by rw [estimateLegacyGas_estimated m auth contract value input f p r hp hr],
      rfl, ?_⟩
    intro hlt
    show r * 12 % 2 ^ 64 / 10 = r * 12 / 10
    rw [Nat.mod_eq_of_lt hlt]
  · intro t ht hr
    refine ⟨_, by rw [estimateDynamicGas_estimated m auth contract value input f t r ht hr],
      rfl, ?_⟩
    intro hlt
    show r * 12 % 2 ^ 64 / 10 = r * 12 / 10
    rw [Nat.mod_eq_of_lt hlt]

/-- Witness of C1 (amended) at the raw estimate 100000: both strategies return
a quote whose gasLimit is 120000. -/
theorem gasLimit_is_margin_of_estimate_witness :
    (∃ q : FeeData,
      (estimateLegacyGas (estimatingMachine 100000) authAlice (some target) (some 0) [] 0).1
        = Outcome.returned (some q, none) ∧ q.gasLimit = 120000) ∧
    (∃ q : FeeData,
      (estimateDynamicGas (estimatingMachine 100000) authAlice (some target) (some 0) [] 0).1
        = Outcome.returned (some q, none) ∧ q.gasLimit = 120000) := by
  have h := gasLimit_is_margin_of_estimate (estimatingMachine 100000) authAlice (some target)
    (some 0) [] 0 100000 (by decide)
  obtain ⟨q1, h1, _, h1c⟩ := h.1 1 rfl rfl
  obtain ⟨q2, h2, _, h2c⟩ := h.2 2 rfl rfl
  exact ⟨⟨q1, h1, by rw [h1c (by decide)]⟩, ⟨q2, h2, by rw [h2c (by decide)]⟩⟩

/-! ## The fallback policy -/

/-- C2 fails on the code at a contract-creation call: the suggestion succeeds,
the simulation fails, the fallback limit is 21000, and both strategies panic
while evaluating `contract.Hex()` for the log record instead of returning the
fallback quote.  The same call with the target present returns the fallback
quote with gasLimit 21000 and the price fields obtained before estimation. -/
theorem fallback_lost_on_nil_target :
    revertingMachine.SuggestGasPrice.1 = Except.ok 1 ∧
    revertingMachine.SuggestGasTipCap.1 = Except.ok 2 ∧
    (revertingMachine.SuggestGasPrice.2.EstimateGas
      (mkCallMsg authAlice none [] (some 1) none none (some 0))).1 = Except.error errRevert ∧
    (revertingMachine.SuggestGasTipCap.2.EstimateGas
      (mkCallMsg authAlice none [] none (some 2) (some 12) (some 0))).1
        = Except.error errRevert ∧
    (estimateLegacyGas revertingMachine authAlice none (some 0) [] 21000).1
      = Outcome.panicked ∧
    (estimateDynamicGas revertingMachine authAlice none (some 0) [] 21000).1
      = Outcome.panicked ∧
    (estimateLegacyGas revertingMachine authAlice (some target) (some 0) [] 21000).1
      = Outcome.returned (some { gasPrice := some 1, gasLimit := 21000 }, none) ∧
    (estimateDynamicGas revertingMachine authAlice (some target) (some 0) [] 21000).1
      = Outcome.returned
          (some { gasLimit := 21000, gasTipCap := some 2, gasFeeCap := some 12 }, none) := by
  refine ⟨rfl, rfl, rfl, rfl, by decide, by decide, by decide, by decide⟩

/-- C3 fails on the code at a call whose nonce is nil: the suggestion
succeeds, the simulation fails with `errRevert`, the fallback limit is 0, and
both strategies panic while evaluating `auth.Nonce.Uint64()` for the log
record instead of returning `errRevert`.  The same call with the nonce present
returns no quote and `errRevert` itself, and `estimateGasLimit` returns
`(0, errRevert)`. -/
theorem error_lost_on_nil_nonce :
    revertingMachine.SuggestGasPrice.1 = Except.ok 1 ∧
    revertingMachine.SuggestGasTipCap.1 = Except.ok 2 ∧
    (revertingMachine.SuggestGasPrice.2.EstimateGas
      (mkCallMsg authNoNonce (some target) [] (some 1) none none (some 0))).1
        = Except.error errRevert ∧
    (revertingMachine.SuggestGasTipCap.2.EstimateGas
      (mkCallMsg authNoNonce (some target) [] none (some 2) (some 12) (some 0))).1
        = Except.error errRevert ∧
    (estimateLegacyGas revertingMachine authNoNonce (some target) (some 0) [] 0).1
      = Outcome.panicked ∧
    (estimateDynamicGas revertingMachine authNoNonce (some target) (some 0) [] 0).1
      = Outcome.panicked ∧
    (estimateLegacyGas revertingMachine authAlice (some target) (some 0) [] 0).1
      = Outcome.returned (none, some errRevert) ∧
    (estimateDynamicGas revertingMachine authAlice (some target) (some 0) [] 0).1
      = Outcome.returned (none, some errRevert) ∧
    (estimateGasLimit revertingMachine authNoNonce (some target) [] (some 1) none none
      (some 0)).1 = (0, some errRevert) := by
  refine ⟨rfl, rfl, rfl, rfl, by decide, by decide, by decide, by decide, by decide⟩

/-- C4: whatever the call, the fallback limit and the behaviour of the
estimate-gas operation, when `SuggestGasPrice` fails with `e` the legacy
strategy returns no quote and `e`, and when `SuggestGasTipCap` fails with `e`
the dynamic strategy returns no quote and `e`. -/
theorem suggestion_failure_is_returned {σ : Type} (m : Machine σ) (auth : TransactOpts)
    (contract : Option Address) (value : Option Int) (input : List Byte) (f : Nat)
    (e : GoError) :
    (m.SuggestGasPrice.1 = Except.error e →
      (estimateLegacyGas m auth contract value input f).1 = Outcome.returned (none, some e)) ∧
    (m.SuggestGasTipCap.1 = Except.error e →
      (estimateDynamicGas m auth contract value input f).1 = Outcome.returned (none, some e)) := by
  constructor
  · intro hp
    rw [estimateLegacyGas_priceError m auth contract value input f e hp]
  · intro ht
    rw [estimateDynamicGas_tipError m auth contract value input f e ht]

/-- Witness of C4 on a node that refuses both suggestions, with the nonzero
fallback 21000 and a nil target. -/
theorem suggestion_failure_is_returned_witness :
    (estimateLegacyGas unreachableMachine authNoNonce none (some 0) [] 21000).1
      = Outcome.returned (none, some errDial) ∧
    (estimateDynamicGas unreachableMachine authNoNonce none (some 0) [] 21000).1
      = Outcome.returned (none, some errDial) :=
  ⟨(suggestion_failure_is_returned unreachableMachine authNoNonce none (some 0) [] 21000
      errDial).1 rfl,
   (suggestion_failure_is_returned unreachableMachine authNoNonce none (some 0) [] 21000
      errDial).2 rfl⟩

/-! ## The fee fields of a quote -/

/-- C5: every quote returned by `estimateDynamicGas`, on the estimated path
and on the fallback path alike, has gasTipCap equal to the suggested tip cap
`t` and gasFeeCap equal to `t + 2 * B` as an exact integer, where `B` is the
Base Fee Snapshot; when `B = 0` the fee cap is `t`. -/
theorem dynamic_quote_caps {σ : Type} (m : Machine σ) (auth : TransactOpts)
    (contract : Option Address) (value : Option Int) (input : List Byte) (f : Nat)
    (t : Int) (q : FeeData) (err : Option GoError)
    (ht : m.SuggestGasTipCap.1 = Except.ok t)
    (h : (estimateDynamicGas m auth contract value input f).1 = Outcome.returned (some q, err)) :
    q.gasTipCap = some t ∧
    q.gasFeeCap = some (t + 2 * (m.s.baseFeePerGas : Int)) ∧
    (m.s.baseFeePerGas = 0 → q.gasFeeCap = some t) := by
  obtain ⟨_, t', ht', hq⟩ := estimateDynamicGas_quote_inv m auth contract value input f q err h
  have htt : t' = t := by
    rw [ht] at ht'
    exact (Except.ok.inj ht').symm
  subst htt
  have hcaps : q.gasTipCap = some t' ∧ q.gasFeeCap = some (feeCapOf t' m.s.baseFeePerGas) := by
    rcases hq with ⟨r, _, hq⟩ | ⟨e, _, _, hq⟩ <;> rw [hq] <;> exact ⟨rfl, rfl⟩
  refine ⟨hcaps.1, ?_, ?_⟩
  · rw [hcaps.2, feeCapOf_eq]
  · intro hb
    rw [hcaps.2, feeCapOf_eq, hb]
    simp

/-- Witness of C5 with tip cap 2 and Base Fee Snapshot 5: the quote of the
estimated path carries the fee cap 12. -/
theorem dynamic_quote_caps_witness :
    (estimateDynamicGas (estimatingMachine 100000) authAlice (some target) (some 0) [] 0).1
      = Outcome.returned
          (some { gasLimit := 120000, gasTipCap := some 2, gasFeeCap := some 12 }, none) ∧
    (2 : Int) + 2 * (((estimatingMachine 100000).s.baseFeePerGas : Nat) : Int) = 12 ∧
    (({ gasLimit := 120000, gasTipCap := some 2, gasFeeCap := some 12 } : FeeData).gasFeeCap
      = some ((2 : Int) + 2 * (((estimatingMachine 100000).s.baseFeePerGas : Nat) : Int))) :=
  ⟨by decide, by decide,
   (dynamic_quote_caps (estimatingMachine 100000) authAlice (some target) (some 0) [] 0 2
      { gasLimit := 120000, gasTipCap := some 2, gasFeeCap := some 12 } none rfl
      (by decide)).2.1⟩

/-- C6: every quote returned by `estimateLegacyGas` has gasPrice populated and
gasTipCap and gasFeeCap unset, and every quote returned by `estimateDynamicGas`
has gasTipCap and gasFeeCap populated and gasPrice unset. -/
theorem quote_price_fields_exclusive {σ : Type} (m : Machine σ) (auth : TransactOpts)
    (contract : Option Address) (value : Option Int) (input : List Byte) (f : Nat)
    (q : FeeData) (err : Option GoError) :
    ((estimateLegacyGas m auth contract value input f).1 = Outcome.returned (some q, err) →
      q.gasPrice.isSome = true ∧ q.gasTipCap = none ∧ q.gasFeeCap = none) ∧
    ((estimateDynamicGas m auth contract value input f).1 = Outcome.returned (some q, err) →
      q.gasTipCap.isSome = true ∧ q.gasFeeCap.isSome = true ∧ q.gasPrice = none) := by
  constructor
  · intro h
    obtain ⟨_, p, _, hq⟩ := estimateLegacyGas_quote_inv m auth contract value input f q err h
    rcases hq with ⟨r, _, hq⟩ | ⟨e, _, _, hq⟩ <;> rw [hq] <;> exact ⟨rfl, rfl, rfl⟩
  · intro h
    obtain ⟨_, t, _, hq⟩ := estimateDynamicGas_quote_inv m auth contract value input f q err h
    rcases hq with ⟨r, _, hq⟩ | ⟨e, _, _, hq⟩ <;> rw [hq] <;> exact ⟨rfl, rfl, rfl⟩

/-- Witness of C6 on the fallback path of both strategies. -/
theorem quote_price_fields_exclusive_witness :
    ((estimateLegacyGas revertingMachine authAlice (some target) (some 0) [] 21000).1
        = Outcome.returned (some { gasPrice := some 1, gasLimit := 21000 }, none) ∧
      ({ gasPrice := some 1, gasLimit := 21000 } : FeeData).gasPrice.isSome = true ∧
      ({ gasPrice := some 1, gasLimit := 21000 } : FeeData).gasTipCap = none ∧
      ({ gasPrice := some 1, gasLimit := 21000 } : FeeData).gasFeeCap = none) ∧
    ((estimateDynamicGas (estimatingMachine 100000) authAlice (some target) (some 0) [] 0).1
        = Outcome.returned
            (some { gasLimit := 120000, gasTipCap := some 2, gasFeeCap := some 12 }, none) ∧
      ({ gasLimit := 120000, gasTipCap := some 2, gasFeeCap := some 12 } : FeeData).gasTipCap.isSome
        = true ∧
      ({ gasLimit := 120000, gasTipCap := some 2, gasFeeCap := some 12 } : FeeData).gasFeeCap.isSome
        = true ∧
      ({ gasLimit := 120000, gasTipCap := some 2, gasFeeCap := some 12 } : FeeData).gasPrice
        = none) :=
  ⟨⟨by decide,
    (quote_price_fields_exclusive revertingMachine authAlice (some target) (some 0) [] 21000
      { gasPrice := some 1, gasLimit := 21000 } none).1 (by decide)⟩,
   ⟨by decide,
    (quote_price_fields_exclusive (estimatingMachine 100000) authAlice (some target) (some 0) [] 0
      { gasLimit := 120000, gasTipCap := some 2, gasFeeCap := some 12 } none).2 (by decide)⟩⟩

/-! ## The limit of a returned quote -/

/-- C7, as stated, fails: when the simulation succeeds with the raw estimate
0, both strategies return a quote with a nil error whose gasLimit is 0. -/
theorem zero_estimate_gives_zero_limit :
    (estimatingMachine 0).SuggestGasPrice.1 = Except.ok 1 ∧
    ((estimatingMachine 0).SuggestGasPrice.2.EstimateGas
      (mkCallMsg authAlice (some target) [] (some 1) none none (some 0))).1 = Except.ok 0 ∧
    (estimateLegacyGas (estimatingMachine 0) authAlice (some target) (some 0) [] 21000).1
      = Outcome.returned (some { gasPrice := some 1, gasLimit := 0 }, none) ∧
    (estimateDynamicGas (estimatingMachine 0) authAlice (some target) (some 0) [] 21000).1
      = Outcome.returned
          (some { gasLimit := 0, gasTipCap := some 2, gasFeeCap := some 12 }, none) := by
  refine ⟨rfl, rfl, by decide, by decide⟩

/-- C7, amended: for every input on which a strategy returns a quote, the
error is nil and the quote's gasLimit is nonzero, provided that the raw
estimate `r` of a successful simulation satisfies `10 ≤ (r * 12) mod 2^64`,
wrapping estimates included.  When the simulation failed, the gasLimit is the
fallback, which is nonzero.  When the simulation succeeded with
`(r * 12) mod 2^64 < 10`, the gasLimit is 0. -/
theorem quote_gasLimit_nonzero {σ : Type} (m : Machine σ) (auth : TransactOpts)
    (contract : Option Address) (value : Option Int) (input : List Byte) (f : Nat)
    (q : FeeData) (err : Option GoError) :
    ((estimateLegacyGas m auth contract value input f).1 = Outcome.returned (some q, err) →
      err = none ∧
      ((∀ (p : Int) (r : Nat), m.SuggestGasPrice.1 = Except.ok p →
          (m.SuggestGasPrice.2.EstimateGas
            (mkCallMsg auth contract input (some p) none none value)).1 = Except.ok r →
          10 ≤ r * 12 % 2 ^ 64) →
        q.gasLimit ≠ 0) ∧
      (∀ (p : Int) (e : GoError), m.SuggestGasPrice.1 = Except.ok p →
          (m.SuggestGasPrice.2.EstimateGas
            (mkCallMsg auth contract input (some p) none none value)).1 = Except.error e →
          q.gasLimit = f ∧ f ≠ 0) ∧
      (∀ (p : Int) (r : Nat), m.SuggestGasPrice.1 = Except.ok p →
          (m.SuggestGasPrice.2.EstimateGas
            (mkCallMsg auth contract input (some p) none none value)).1 = Except.ok r →
          r * 12 % 2 ^ 64 < 10 → q.gasLimit = 0)) ∧
    ((estimateDynamicGas m auth contract value input f).1 = Outcome.returned (some q, err) →
      err = none ∧
      ((∀ (t : Int) (r : Nat), m.SuggestGasTipCap.1 = Except.ok t →
          (m.SuggestGasTipCap.2.EstimateGas
            (mkCallMsg auth contract input none (some t) (some (feeCapOf t m.s.baseFeePerGas))
              value)).1 = Except.ok r →
          10 ≤ r * 12 % 2 ^ 64) →
        q.gasLimit ≠ 0) ∧
      (∀ (t : Int) (e : GoError), m.SuggestGasTipCap.1 = Except.ok t →
          (m.SuggestGasTipCap.2.EstimateGas
            (mkCallMsg auth contract input none (some t) (some (feeCapOf t m.s.baseFeePerGas))
              value)).1 = Except.error e →
          q.gasLimit = f ∧ f ≠ 0) ∧
      (∀ (t : Int) (r : Nat), m.SuggestGasTipCap.1 = Except.ok t →
          (m.SuggestGasTipCap.2.EstimateGas
            (mkCallMsg auth contract input none (some t) (some (feeCapOf t m.s.baseFeePerGas))
              value)).1 = Except.ok r →
          r * 12 % 2 ^ 64 < 10 → q.gasLimit = 0)) := by
  have pos : ∀ x : Nat, 10 ≤ x → x / 10 ≠ 0 := by
    intro x hx
    omega
  have zero : ∀ x : Nat, x < 10 → x / 10 = 0 := by
    intro x hx
    omega
  constructor
  · intro h
    obtain ⟨he, p, hp, hq⟩ := estimateLegacyGas_quote_inv m auth contract value input f q err h
    refine ⟨he, ?_, ?_, ?_⟩
    · intro hraw
      rcases hq with ⟨r, hr, hq⟩ | ⟨e, _, hf, hq⟩
      · rw [hq]
        exact pos _ (hraw p r hp hr)
      · rw [hq]
        exact hf
    · intro p' e' hp' he'
      have hpp : p' = p := Except.ok.inj (hp'.symm.trans hp)
      subst hpp
      rcases hq with ⟨r, hr, _⟩ | ⟨e, _, hf, hq⟩
      · rw [he'] at hr
        exact absurd hr (by simp)
      · rw [hq]
        exact ⟨rfl, hf⟩
    · intro p' r' hp' hr' hlt
      have hpp : p' = p := Except.ok.inj (hp'.symm.trans hp)
      subst hpp
      rcases hq with ⟨r, hr, hq⟩ | ⟨e, he', _, _⟩
      · have hrr : r' = r := Except.ok.inj (hr'.symm.trans hr)
        subst hrr
        rw [hq]
        exact zero _ hlt
      · rw [hr'] at he'
        exact absurd he' (by simp)
  · intro h
    obtain ⟨he, t, ht, hq⟩ := estimateDynamicGas_quote_inv m auth contract value input f q err h
    refine ⟨he, ?_, ?_, ?_⟩
    · intro hraw
      rcases hq with ⟨r, hr, hq⟩ | ⟨e, _, hf, hq⟩
      · rw [hq]
        exact pos _ (hraw t r ht hr)
      · rw [hq]
        exact hf
    · intro t' e' ht' he'
      have htt : t' = t := Except.ok.inj (ht'.symm.trans ht)
      subst htt
      rcases hq with ⟨r, hr, _⟩ | ⟨e, _, hf, hq⟩
      · rw [he'] at hr
        exact absurd hr (by simp)
      · rw [hq]
        exact ⟨rfl, hf⟩
    · intro t' r' ht' hr' hlt
      have htt : t' = t := Except.ok.inj (ht'.symm.trans ht)
      subst htt
      rcases hq with ⟨r, hr, hq⟩ | ⟨e, he', _, _⟩
      · have hrr : r' = r := Except.ok.inj (hr'.symm.trans hr)
        subst hrr
        rw [hq]
        exact zero _ hlt
      · rw [hr'] at he'
        exact absurd he' (by simp)

/-- Witness of C7 (amended).  On the estimated path of the legacy strategy at
the wrapping raw estimate `2^64 - 1` the quote has the nonzero gasLimit
1844674407370955160; on the fallback path of the dynamic strategy the quote
has the fallback 21000 as gasLimit; on the estimated path of the legacy
strategy at the wrapping raw estimate `2^63` the quote has gasLimit 0. -/
theorem quote_gasLimit_nonzero_witness :
    ((estimateLegacyGas (estimatingMachine (2 ^ 64 - 1)) authAlice (some target) (some 0) []
          0).1
        = Outcome.returned
            (some { gasPrice := some 1, gasLimit := 1844674407370955160 }, none) ∧
      ({ gasPrice := some 1, gasLimit := 1844674407370955160 } : FeeData).gasLimit ≠ 0) ∧
    ((estimateDynamicGas revertingMachine authAlice (some target) (some 0) [] 21000).1
        = Outcome.returned
            (some { gasLimit := 21000, gasTipCap := some 2, gasFeeCap := some 12 }, none) ∧
      ({ gasLimit := 21000, gasTipCap := some 2, gasFeeCap := some 12 } : FeeData).gasLimit
        = 21000 ∧ 21000 ≠ 0) ∧
    ((estimateLegacyGas (estimatingMachine (2 ^ 63)) authAlice (some target) (some 0) [] 0).1
        = Outcome.returned (some { gasPrice := some 1, gasLimit := 0 }, none) ∧
      ({ gasPrice := some 1, gasLimit := 0 } : FeeData).gasLimit = 0) := by
  refine ⟨⟨by decide, ?_⟩, ⟨by decide, ?_⟩, ⟨by decide, ?_⟩⟩
  · refine ((quote_gasLimit_nonzero (estimatingMachine (2 ^ 64 - 1)) authAlice (some target)
      (some 0) [] 0 { gasPrice := some 1, gasLimit := 1844674407370955160 } none).1
      (by decide)).2.1 ?_
    intro p r _ hr
    have hr' : r = 2 ^ 64 - 1 := (Except.ok.inj hr).symm
    subst hr'
    decide
  · exact ((quote_gasLimit_nonzero revertingMachine authAlice (some target) (some 0)
      [] 21000 { gasLimit := 21000, gasTipCap := some 2, gasFeeCap := some 12 } none).2
      (by decide)).2.2.1 2 errRevert rfl rfl
  · exact ((quote_gasLimit_nonzero (estimatingMachine (2 ^ 63)) authAlice (some target)
      (some 0) [] 0 { gasPrice := some 1, gasLimit := 0 } none).1
      (by decide)).2.2.2 1 (2 ^ 63) rfl rfl (by decide)

/-! ## Nil target and nil nonce -/

/-- C8 fails on the code: on the limit-estimation-failure branch the
arguments of the log call dereference `auth.Nonce` and `contract`.  With a nil
target (contract creation) or a nil nonce, and a failed simulation, both
strategies end in a panic, which is neither of the two terminal states, for
the fallback 21000 as for the fallback 0.  While the simulation succeeds the
same requests do return a quote. -/
theorem log_arguments_panic_on_nil :
    (estimateLegacyGas revertingMachine authAlice none (some 0) [] 21000).1
      = Outcome.panicked ∧
    (estimateLegacyGas revertingMachine authNoNonce (some target) (some 0) [] 21000).1
      = Outcome.panicked ∧
    (estimateDynamicGas revertingMachine authAlice none (some 0) [] 21000).1
      = Outcome.panicked ∧
    (estimateDynamicGas revertingMachine authNoNonce (some target) (some 0) [] 21000).1
      = Outcome.panicked ∧
    (estimateLegacyGas revertingMachine authNoNonce none (some 0) [] 0).1
      = Outcome.panicked ∧
    (estimateDynamicGas revertingMachine authNoNonce none (some 0) [] 0).1
      = Outcome.panicked ∧
    (estimateLegacyGas (estimatingMachine 100000) authNoNonce none (some 0) [] 21000).1
      = Outcome.returned (some { gasPrice := some 1, gasLimit := 120000 }, none) ∧
    (estimateDynamicGas (estimatingMachine 100000) authNoNonce none (some 0) [] 21000).1
      = Outcome.returned
          (some { gasLimit := 120000, gasTipCap := some 2, gasFeeCap := some 12 }, none) := by
  decide

/-! ## What the authContext is used for -/

/-- C9, as stated, fails: `authAlice` and `authBob` differ only in the sender
address, yet the call descriptor handed to the estimate-gas operation carries
that address in `From`, so the two descriptors differ; on a node that checks
the sender of a simulated call the first invocation returns a quote and the
second returns the simulation error. -/
theorem sender_address_reaches_the_descriptor :
    authAlice.Nonce = authBob.Nonce ∧
    (estimateLegacyGas senderCheckingMachine authAlice (some target) (some 0) [] 0).2.calls
      = [ClientCall.suggestGasPrice { id := 7 },
         ClientCall.estimateGas { id := 7 }
           { From := alice, To := some target, Gas := 0, GasPrice := some 1, GasFeeCap := none,
             GasTipCap := none, Value := some 0, Data := [], AccessList := [] }] ∧
    (estimateLegacyGas senderCheckingMachine authBob (some target) (some 0) [] 0).2.calls
      = [ClientCall.suggestGasPrice { id := 7 },
         ClientCall.estimateGas { id := 7 }
           { From := bob, To := some target, Gas := 0, GasPrice := some 1, GasFeeCap := none,
             GasTipCap := none, Value := some 0, Data := [], AccessList := [] }] ∧
    alice ≠ bob ∧
    (estimateLegacyGas senderCheckingMachine authAlice (some target) (some 0) [] 0).1
      = Outcome.returned (some { gasPrice := some 1, gasLimit := 120000 }, none) ∧
    (estimateLegacyGas senderCheckingMachine authBob (some target) (some 0) [] 0).1
      = Outcome.returned (none, some errRevert) ∧
    (estimateDynamicGas senderCheckingMachine authAlice (some target) (some 0) [] 0).1
      = Outcome.returned
          (some { gasLimit := 120000, gasTipCap := some 2, gasFeeCap := some 12 }, none) ∧
    (estimateDynamicGas senderCheckingMachine authBob (some target) (some 0) [] 0).1
      = Outcome.returned (none, some errRevert) := by
  decide

/-- C9, amended: the nonce is used only for diagnostic logging, and the sender
address only for logging and as the `From` field of the call descriptor.  For
two invocations of a strategy on the same machine that differ only in the
nonce (present in both) the Chain Client calls, descriptor included, are the
same; for two invocations that differ in sender address and nonce (present in
both), if the estimate-gas operation answers the two descriptors alike, the
returned quote or error is the same. -/
theorem authContext_only_feeds_From {σ : Type} (m : Machine σ) (a₁ a₂ : Address)
    (n₁ n₂ : Int) (contract : Option Address) (value : Option Int) (input : List Byte)
    (f : Nat) :
    ((estimateLegacyGas m { From := a₁, Nonce := some n₁ } contract value input f).2.calls
        = (estimateLegacyGas m { From := a₁, Nonce := some n₂ } contract value input f).2.calls ∧
      ((∀ p : Int, m.SuggestGasPrice.1 = Except.ok p →
          (m.SuggestGasPrice.2.EstimateGas (mkCallMsg { From := a₁, Nonce := some n₁ }
            contract input (some p) none none value)).1
          = (m.SuggestGasPrice.2.EstimateGas (mkCallMsg { From := a₂, Nonce := some n₂ }
            contract input (some p) none none value)).1) →
        (estimateLegacyGas m { From := a₁, Nonce := some n₁ } contract value input f).1
          = (estimateLegacyGas m { From := a₂, Nonce := some n₂ } contract value input f).1)) ∧
    ((estimateDynamicGas m { From := a₁, Nonce := some n₁ } contract value input f).2.calls
        = (estimateDynamicGas m { From := a₁, Nonce := some n₂ } contract value input f).2.calls ∧
      ((∀ t : Int, m.SuggestGasTipCap.1 = Except.ok t →
          (m.SuggestGasTipCap.2.EstimateGas (mkCallMsg { From := a₁, Nonce := some n₁ }
            contract input none (some t) (some (feeCapOf t m.s.baseFeePerGas)) value)).1
          = (m.SuggestGasTipCap.2.EstimateGas (mkCallMsg { From := a₂, Nonce := some n₂ }
            contract input none (some t) (some (feeCapOf t m.s.baseFeePerGas)) value)).1) →
        (estimateDynamicGas m { From := a₁, Nonce := some n₁ } contract value input f).1
          = (estimateDynamicGas m { From := a₂, Nonce := some n₂ } contract value input f).1)) := by
  refine ⟨⟨?_, ?_⟩, ⟨?_, ?_⟩⟩
  · rw [(estimateLegacyGas_frame m _ contract value input f).2.1,
      (estimateLegacyGas_frame m _ contract value input f).2.1]
    rfl
  · intro hsame
    cases hp : m.SuggestGasPrice.1 with
    | error e =>
      rw [estimateLegacyGas_priceError m _ contract value input f e hp,
        estimateLegacyGas_priceError m _ contract value input f e hp]
    | ok p =>
      have h12 := hsame p hp
      cases hr : (m.SuggestGasPrice.2.EstimateGas (mkCallMsg { From := a₁, Nonce := some n₁ }
          contract input (some p) none none value)).1 with
      | ok r =>
        rw [estimateLegacyGas_estimated m _ contract value input f p r hp hr,
          estimateLegacyGas_estimated m _ contract value input f p r hp (h12 ▸ hr)]
      | error e =>
        cases contract with
        | none =>
          rw [estimateLegacyGas_panics m _ none value input f p e hp hr (Or.inr rfl),
            estimateLegacyGas_panics m _ none value input f p e hp (h12 ▸ hr) (Or.inr rfl)]
        | some c =>
          rw [estimateLegacyGas_failed m _ (some c) value input f p e n₁ c hp hr rfl rfl,
            estimateLegacyGas_failed m _ (some c) value input f p e n₂ c hp (h12 ▸ hr) rfl rfl]
  · rw [(estimateDynamicGas_frame m _ contract value input f).2.1,
      (estimateDynamicGas_frame m _ contract value input f).2.1]
    rfl
  · intro hsame
    cases ht : m.SuggestGasTipCap.1 with
    | error e =>
      rw [estimateDynamicGas_tipError m _ contract value input f e ht,
        estimateDynamicGas_tipError m _ contract value input f e ht]
    | ok t =>
      have h12 := hsame t ht
      cases hr : (m.SuggestGasTipCap.2.EstimateGas (mkCallMsg { From := a₁, Nonce := some n₁ }
          contract input none (some t) (some (feeCapOf t m.s.baseFeePerGas)) value)).1 with
      | ok r =>
        rw [estimateDynamicGas_estimated m _ contract value input f t r ht hr,
          estimateDynamicGas_estimated m _ contract value input f t r ht (h12 ▸ hr)]
      | error e =>
        cases contract with
        | none =>
          rw [estimateDynamicGas_panics m _ none value input f t e ht hr (Or.inr rfl),
            estimateDynamicGas_panics m _ none value input f t e ht (h12 ▸ hr) (Or.inr rfl)]
        | some c =>
          rw [estimateDynamicGas_failed m _ (some c) value input f t e n₁ c ht hr rfl rfl,
            estimateDynamicGas_failed m _ (some c) value input f t e n₂ c ht (h12 ▸ hr) rfl rfl]

/-- Witness of C9 (amended): on a node that answers every simulation alike,
the invocations for `alice` with nonce 3 and for `bob` with nonce 9 return the
same result, in both strategies. -/
theorem authContext_only_feeds_From_witness :
    (estimateLegacyGas revertingMachine { From := alice, Nonce := some 3 } (some target)
        (some 0) [] 21000).1
      = (estimateLegacyGas revertingMachine { From := bob, Nonce := some 9 } (some target)
        (some 0) [] 21000).1 ∧
    (estimateDynamicGas revertingMachine { From := alice, Nonce := some 3 } (some target)
        (some 0) [] 21000).1
      = (estimateDynamicGas revertingMachine { From := bob, Nonce := some 9 } (some target)
        (some 0) [] 21000).1 :=
  ⟨(authContext_only_feeds_From revertingMachine alice bob 3 9 (some target) (some 0) []
      21000).1.2 (fun _ _ => rfl),
   (authContext_only_feeds_From revertingMachine alice bob 3 9 (some target) (some 0) []
      21000).2.2 (fun _ _ => rfl)⟩

/-! ## The Base Fee Snapshot is only read -/

/-- C10: on every input and every outcome (quote, fallback quote, error, and
a panic as well) the sender's `baseFeePerGas` after `estimateLegacyGas`,
`estimateDynamicGas` or `estimateGasLimit` equals its value before the call. -/
theorem baseFeePerGas_unchanged {σ : Type} (m : Machine σ) (auth : TransactOpts)
    (contract : Option Address) (value : Option Int) (input : List Byte) (f : Nat)
    (gasPrice gasTipCap gasFeeCap : Option Int) :
    (estimateLegacyGas m auth contract value input f).2.s.baseFeePerGas = m.s.baseFeePerGas ∧
    (estimateDynamicGas m auth contract value input f).2.s.baseFeePerGas = m.s.baseFeePerGas ∧
    (estimateGasLimit m auth contract input gasPrice gasTipCap gasFeeCap value).2.s.baseFeePerGas
      = m.s.baseFeePerGas := by
  refine ⟨?_, ?_, ?_⟩
  · rw [(estimateLegacyGas_frame m auth contract value input f).1]
  · rw [(estimateDynamicGas_frame m auth contract value input f).1]
  · rw [(estimateGasLimit_frame m auth contract input gasPrice gasTipCap gasFeeCap value).1]

/-! ## The calls made on the Chain Client -/

/-- C11: the call descriptor sent to the estimate-gas operation carries the
price fields of the active fee model only.  After a successful suggestion,
`estimateLegacyGas` sends the suggested gas price with a nil tip cap and a nil
fee cap, and `estimateDynamicGas` sends a nil gas price with the suggested tip
cap and the fee cap `tip + 2 * baseFee`; in both, target, value and payload
are the strategy's arguments, unchanged. -/
theorem descriptor_carries_active_fee_model {σ : Type} (m : Machine σ) (auth : TransactOpts)
    (contract : Option Address) (value : Option Int) (input : List Byte) (f : Nat) :
    (∀ p : Int, m.SuggestGasPrice.1 = Except.ok p →
      (estimateLegacyGas m auth contract value input f).2.calls
        = m.calls ++ [ClientCall.suggestGasPrice m.s.ctx,
            ClientCall.estimateGas m.s.ctx
              { From := auth.From, To := contract, Gas := 0, GasPrice := some p,
                GasFeeCap := none, GasTipCap := none, Value := value, Data := input,
                AccessList := [] }]) ∧
    (∀ t : Int, m.SuggestGasTipCap.1 = Except.ok t →
      (estimateDynamicGas m auth contract value input f).2.calls
        = m.calls ++ [ClientCall.suggestGasTipCap m.s.ctx,
            ClientCall.estimateGas m.s.ctx
              { From := auth.From, To := contract, Gas := 0, GasPrice := none,
                GasFeeCap := some (t + 2 * (m.s.baseFeePerGas : Int)), GasTipCap := some t,
                Value := value, Data := input, AccessList := [] }]) := by
  constructor
  · intro p hp
    rw [(estimateLegacyGas_frame m auth contract value input f).2.1, hp]
    rfl
  · intro t ht
    rw [(estimateDynamicGas_frame m auth contract value input f).2.1, ht,
      ← feeCapOf_eq t m.s.baseFeePerGas]
    rfl

/-- Witness of C11 on a contract-creation call with payload `[1, 2]` and value
9, tip cap 2 and Base Fee Snapshot 5: the descriptors sent by the two
strategies. -/
theorem descriptor_carries_active_fee_model_witness :
    (estimateLegacyGas (estimatingMachine 100000) authAlice none (some 9) [1, 2] 0).2.calls
      = [ClientCall.suggestGasPrice { id := 7 },
         ClientCall.estimateGas { id := 7 }
           { From := alice, To := none, Gas := 0, GasPrice := some 1, GasFeeCap := none,
             GasTipCap := none, Value := some 9, Data := [1, 2], AccessList := [] }] ∧
    (estimateDynamicGas (estimatingMachine 100000) authAlice none (some 9) [1, 2] 0).2.calls
      = [ClientCall.suggestGasTipCap { id := 7 },
         ClientCall.estimateGas { id := 7 }
           { From := alice, To := none, Gas := 0, GasPrice := none, GasFeeCap := some 12,
             GasTipCap := some 2, Value := some 9, Data := [1, 2], AccessList := [] }] :=
  ⟨(descriptor_carries_active_fee_model (estimatingMachine 100000) authAlice none (some 9)
      [1, 2] 0).1 1 rfl,
   (descriptor_carries_active_fee_model (estimatingMachine 100000) authAlice none (some 9)
      [1, 2] 0).2 2 rfl⟩

/-- C12: the Chain Client calls of one strategy invocation.  The first call is
the suggestion of the strategy's own kind (`SuggestGasPrice` for legacy,
`SuggestGasTipCap` for dynamic); when it fails it is the only call; when it
succeeds exactly one estimate-gas call follows it, whether that call succeeds
or fails.  So an invocation makes at most two calls, hence at most three, and
repeats none. -/
theorem client_calls_of_one_invocation {σ : Type} (m : Machine σ) (auth : TransactOpts)
    (contract : Option Address) (value : Option Int) (input : List Byte) (f : Nat) :
    ((∀ e : GoError, m.SuggestGasPrice.1 = Except.error e →
        (estimateLegacyGas m auth contract value input f).2.calls
          = m.calls ++ [ClientCall.suggestGasPrice m.s.ctx]) ∧
      (∀ p : Int, m.SuggestGasPrice.1 = Except.ok p →
        ∃ msg : CallMsg, (estimateLegacyGas m auth contract value input f).2.calls
          = m.calls ++ [ClientCall.suggestGasPrice m.s.ctx,
              ClientCall.estimateGas m.s.ctx msg]) ∧
      (estimateLegacyGas m auth contract value input f).2.calls.length ≤ m.calls.length + 3) ∧
    ((∀ e : GoError, m.SuggestGasTipCap.1 = Except.error e →
        (estimateDynamicGas m auth contract value input f).2.calls
          = m.calls ++ [ClientCall.suggestGasTipCap m.s.ctx]) ∧
      (∀ t : Int, m.SuggestGasTipCap.1 = Except.ok t →
        ∃ msg : CallMsg, (estimateDynamicGas m auth contract value input f).2.calls
          = m.calls ++ [ClientCall.suggestGasTipCap m.s.ctx,
              ClientCall.estimateGas m.s.ctx msg]) ∧
      (estimateDynamicGas m auth contract value input f).2.calls.length ≤ m.calls.length + 3) := by
  refine ⟨⟨?_, ?_, ?_⟩, ⟨?_, ?_, ?_⟩⟩
  · intro e hp
    rw [(estimateLegacyGas_frame m auth contract value input f).2.1, hp]
  · intro p hp
    refine ⟨mkCallMsg auth contract input (some p) none none value, ?_⟩
    rw [(estimateLegacyGas_frame m auth contract value input f).2.1, hp]
  · rw [(estimateLegacyGas_frame m auth contract value input f).2.1]
    cases m.SuggestGasPrice.1 <;> simp
  · intro e ht
    rw [(estimateDynamicGas_frame m auth contract value input f).2.1, ht]
  · intro t ht
    refine ⟨mkCallMsg auth contract input none (some t) (some (feeCapOf t m.s.baseFeePerGas))
      value, ?_⟩
    rw [(estimateDynamicGas_frame m auth contract value input f).2.1, ht]
  · rw [(estimateDynamicGas_frame m auth contract value input f).2.1]
    cases m.SuggestGasTipCap.1 <;> simp

/-- Witness of C12: on a node that refuses the suggestion each strategy makes
the one suggestion call and no estimate-gas call, with the fallback 21000. -/
theorem client_calls_of_one_invocation_witness :
    (estimateLegacyGas unreachableMachine authAlice (some target) (some 0) [] 21000).2.calls
      = [ClientCall.suggestGasPrice { id := 7 }] ∧
    (estimateDynamicGas unreachableMachine authAlice (some target) (some 0) [] 21000).2.calls
      = [ClientCall.suggestGasTipCap { id := 7 }] :=
  ⟨(client_calls_of_one_invocation unreachableMachine authAlice (some target) (some 0) []
      21000).1.1 errDial rfl,
   (client_calls_of_one_invocation unreachableMachine authAlice (some target) (some 0) []
      21000).2.1 errDial rfl⟩

/-! ## The margin in 64-bit arithmetic -/

/-- C13: `estimateGasLimit` computes the margin in 64-bit unsigned arithmetic.
For every `uint64` raw estimate `r` of a successful simulation it returns
`((r * 12) mod 2^64) / 10` with a nil error; when `r * 12 < 2^64` the result is
`floor(r * 12 / 10)` and is at least `r`; and there is a `uint64` raw estimate
for which the result is smaller than the estimate. -/
theorem estimateGasLimit_margin_uint64 {σ : Type} (m : Machine σ) (opts : TransactOpts)
    (contract : Option Address) (input : List Byte)
    (gasPrice gasTipCap gasFeeCap value : Option Int) (r : Nat) (_hr : r < 2 ^ 64)
    (h : (m.EstimateGas (mkCallMsg opts contract input gasPrice gasTipCap gasFeeCap value)).1
      = Except.ok r) :
    (estimateGasLimit m opts contract input gasPrice gasTipCap gasFeeCap value).1
      = (r * 12 % 2 ^ 64 / 10, none) ∧
    (r * 12 < 2 ^ 64 →
      (estimateGasLimit m opts contract input gasPrice gasTipCap gasFeeCap value).1.1
        = r * 12 / 10 ∧
      r ≤ (estimateGasLimit m opts contract input gasPrice gasTipCap gasFeeCap value).1.1) ∧
    (∃ r' : Nat, r' < 2 ^ 64 ∧
      (estimateGasLimit (estimatingMachine r') authAlice (some target) [] (some 1) none none
        (some 0)).1.1 < r') := by
  rw [estimateGasLimit_ok m opts contract input gasPrice gasTipCap gasFeeCap value r h]
  refine ⟨rfl, ?_, ⟨2 ^ 63, by decide, by decide⟩⟩
  intro hlt
  show r * 12 % 2 ^ 64 / 10 = r * 12 / 10 ∧ r ≤ r * 12 % 2 ^ 64 / 10
  rw [Nat.mod_eq_of_lt hlt]
  exact ⟨rfl, by omega⟩

/-- Witness of C13 at the raw estimate 100000: the result is 120000, which is
not below the estimate. -/
theorem estimateGasLimit_margin_uint64_witness :
    (estimateGasLimit (estimatingMachine 100000) authAlice (some target) [] (some 1) none none
      (some 0)).1 = (120000, none) ∧
    100000 ≤ (estimateGasLimit (estimatingMachine 100000) authAlice (some target) [] (some 1)
      none none (some 0)).1.1 :=
  ⟨(estimateGasLimit_margin_uint64 (estimatingMachine 100000) authAlice (some target) []
      (some 1) none none (some 0) 100000 (by decide) rfl).1,
   ((estimateGasLimit_margin_uint64 (estimatingMachine 100000) authAlice (some target) []
      (some 1) none none (some 0) 100000 (by decide) rfl).2.1 (by decide)).2⟩

/-! ## Fee cap against tip cap -/

/-- C14: every quote returned by `estimateDynamicGas` has a tip cap `t` and a
fee cap `c` with `t ≤ c`, whatever the sign of the suggested tip cap and
whatever the Base Fee Snapshot, and `c = t` exactly when the snapshot is 0. -/
theorem dynamic_feeCap_ge_tipCap {σ : Type} (m : Machine σ) (auth : TransactOpts)
    (contract : Option Address) (value : Option Int) (input : List Byte) (f : Nat)
    (q : FeeData) (err : Option GoError)
    (h : (estimateDynamicGas m auth contract value input f).1 = Outcome.returned (some q, err)) :
    ∃ t c : Int, q.gasTipCap = some t ∧ q.gasFeeCap = some c ∧ t ≤ c ∧
      (c = t ↔ m.s.baseFeePerGas = 0) := by
  obtain ⟨_, t, _, hq⟩ := estimateDynamicGas_quote_inv m auth contract value input f q err h
  have hcaps : q.gasTipCap = some t ∧ q.gasFeeCap = some (feeCapOf t m.s.baseFeePerGas) := by
    rcases hq with ⟨r, _, hq⟩ | ⟨e, _, _, hq⟩ <;> rw [hq] <;> exact ⟨rfl, rfl⟩
  refine ⟨t, feeCapOf t m.s.baseFeePerGas, hcaps.1, hcaps.2, ?_, ?_⟩
  · rw [feeCapOf_eq]
    omega
  · rw [feeCapOf_eq]
    omega

/-- Witness of C14 with the negative tip cap -4: with the Base Fee Snapshot 3
the returned quote has fee cap 2, and with the snapshot 0 it has fee cap -4,
equal to the tip cap. -/
theorem dynamic_feeCap_ge_tipCap_witness :
    (∃ t c : Int,
      ({ gasLimit := 120000, gasTipCap := some (-4), gasFeeCap := some 2 } : FeeData).gasTipCap
        = some t ∧
      ({ gasLimit := 120000, gasTipCap := some (-4), gasFeeCap := some 2 } : FeeData).gasFeeCap
        = some c ∧ t ≤ c ∧
      (c = t ↔ (scriptedMachine (Except.ok 1) (Except.ok (-4)) (fun _ => Except.ok 100000)
        3).s.baseFeePerGas = 0)) ∧
    (estimateDynamicGas (scriptedMachine (Except.ok 1) (Except.ok (-4))
        (fun _ => Except.ok 100000) 0) authAlice (some target) (some 0) [] 0).1
      = Outcome.returned
          (some { gasLimit := 120000, gasTipCap := some (-4), gasFeeCap := some (-4) }, none) :=
  ⟨dynamic_feeCap_ge_tipCap (scriptedMachine (Except.ok 1) (Except.ok (-4))
      (fun _ => Except.ok 100000) 3) authAlice (some target) (some 0) [] 0
      { gasLimit := 120000, gasTipCap := some (-4), gasFeeCap := some 2 } none (by decide),
   by decide⟩

/-! ## What a successful run does not depend on -/

/-- C15: the fallback limit has no influence when limit estimation succeeds.
For both strategies and any two fallback limits `f₁` and `f₂`, zero or not,
when the suggestion and the simulation succeed the two runs return the same
quote with a nil error. -/
theorem fallback_ignored_when_estimated {σ : Type} (m : Machine σ) (auth : TransactOpts)
    (contract : Option Address) (value : Option Int) (input : List Byte) (f₁ f₂ : Nat) :
    (∀ (p : Int) (r : Nat), m.SuggestGasPrice.1 = Except.ok p →
      (m.SuggestGasPrice.2.EstimateGas
        (mkCallMsg auth contract input (some p) none none value)).1 = Except.ok r →
      ∃ q : FeeData,
        (estimateLegacyGas m auth contract value input f₁).1
          = Outcome.returned (some q, none) ∧
        (estimateLegacyGas m auth contract value input f₂).1
          = Outcome.returned (some q, none)) ∧
    (∀ (t : Int) (r : Nat), m.SuggestGasTipCap.1 = Except.ok t →
      (m.SuggestGasTipCap.2.EstimateGas
        (mkCallMsg auth contract input none (some t) (some (feeCapOf t m.s.baseFeePerGas))
          value)).1 = Except.ok r →
      ∃ q : FeeData,
        (estimateDynamicGas m auth contract value input f₁).1
          = Outcome.returned (some q, none) ∧
        (estimateDynamicGas m auth contract value input f₂).1
          = Outcome.returned (some q, none)) := by
  constructor
  · intro p r hp hr
    exact ⟨_, by rw [estimateLegacyGas_estimated m auth contract value input f₁ p r hp hr],
      by rw [estimateLegacyGas_estimated m auth contract value input f₂ p r hp hr]⟩
  · intro t r ht hr
    exact ⟨_, by rw [estimateDynamicGas_estimated m auth contract value input f₁ t r ht hr],
      by rw [estimateDynamicGas_estimated m auth contract value input f₂ t r ht hr]⟩

/-- Witness of C15 with the fallback limits 0 and 21000 at the raw estimate
100000. -/
theorem fallback_ignored_when_estimated_witness :
    (∃ q : FeeData,
      (estimateLegacyGas (estimatingMachine 100000) authAlice (some target) (some 0) [] 0).1
        = Outcome.returned (some q, none) ∧
      (estimateLegacyGas (estimatingMachine 100000) authAlice (some target) (some 0) [] 21000).1
        = Outcome.returned (some q, none)) ∧
    (∃ q : FeeData,
      (estimateDynamicGas (estimatingMachine 100000) authAlice (some target) (some 0) [] 0).1
        = Outcome.returned (some q, none) ∧
      (estimateDynamicGas (estimatingMachine 100000) authAlice (some target) (some 0) [] 21000).1
        = Outcome.returned (some q, none)) :=
  ⟨(fallback_ignored_when_estimated (estimatingMachine 100000) authAlice (some target) (some 0)
      [] 0 21000).1 1 100000 rfl rfl,
   (fallback_ignored_when_estimated (estimatingMachine 100000) authAlice (some target) (some 0)
      [] 0 21000).2 2 100000 rfl rfl⟩

/-- C16: `estimateLegacyGas` does not depend on the Base Fee Snapshot.  For
two machines that differ only in the sender's `baseFeePerGas`, with the same
Chain Client, node state and arguments, it ends the same way: the same quote,
the same error, or a panic in both. -/
theorem legacy_ignores_baseFeePerGas {σ : Type} (m : Machine σ) (b : Nat) (auth : TransactOpts)
    (contract : Option Address) (value : Option Int) (input : List Byte) (f : Nat) :
    (estimateLegacyGas { m with s := { m.s with baseFeePerGas := b } } auth contract value
        input f).1
      = (estimateLegacyGas m auth contract value input f).1 := by
  cases hp : m.SuggestGasPrice.1 with
  | error e =>
    rw [estimateLegacyGas_priceError m auth contract value input f e hp,
      estimateLegacyGas_priceError
        ({ m with s := { m.s with baseFeePerGas := b } } : Machine σ)
        auth contract value input f e hp]
  | ok p =>
    cases hr : (m.SuggestGasPrice.2.EstimateGas
        (mkCallMsg auth contract input (some p) none none value)).1 with
    | ok r =>
      rw [estimateLegacyGas_estimated m auth contract value input f p r hp hr,
        estimateLegacyGas_estimated
          ({ m with s := { m.s with baseFeePerGas := b } } : Machine σ)
          auth contract value input f p r hp hr]
    | error e =>
      cases hn : auth.Nonce with
      | none =>
        rw [estimateLegacyGas_panics m auth contract value input f p e hp hr (Or.inl hn),
          estimateLegacyGas_panics
            ({ m with s := { m.s with baseFeePerGas := b } } : Machine σ)
            auth contract value input f p e hp hr (Or.inl hn)]
      | some n =>
        cases hc : contract with
        | none =>
          subst hc
          rw [estimateLegacyGas_panics m auth none value input f p e hp hr (Or.inr rfl),
            estimateLegacyGas_panics
              ({ m with s := { m.s with baseFeePerGas := b } } : Machine σ)
              auth none value input f p e hp hr (Or.inr rfl)]
        | some c =>
          subst hc
          rw [estimateLegacyGas_failed m auth (some c) value input f p e n c hp hr hn rfl,
            estimateLegacyGas_failed
              ({ m with s := { m.s with baseFeePerGas := b } } : Machine σ)
              auth (some c) value input f p e n c hp hr hn rfl]

end EstimateGas
